import Mathlib

/-!
Verification development for the tvtv-to-XMLTV guide server (src/index.ts).

The source is a single TypeScript file: a Bun HTTP server whose route
GET /xmltv fetches a channel lineup and a multi-day program grid from the
tvtv.us API and assembles an XMLTV document.  The embedding below models the
pure transformation core of that file:

  - the chunk helper (src/index.ts lines 208-214);
  - the query time-window arithmetic of the day loop (lines 103-109), over a
    luxon-style DateTime restricted to what the script uses: an instant
    (seconds since the Unix epoch) paired with a zone name;
  - the XMLTV assembly of generateXml (lines 62-178) as a pure function from
    the fetched lineup and per-day grid data to an XML element tree;
  - the fetch error paths of the request handler (lines 21-44 and 71-78):
    fetched bytes, JSON parsing and iterability are modelled explicitly, and
    the per-day grid results are supplied as data.

Network transport, logging, serialization of the finished tree to text, and
the xmlbuilder2 mutation API are not modelled; the document is represented
directly as the tree of elements, attributes and text that the builder calls
construct, in construction order.
-/

namespace Xmltv

/-- JSON values as returned by Response.json().  Numbers are modelled as
integers; no field that any claim touches is numeric. -/
inductive Json : Type
  | null
  | bool (b : Bool)
  | num (n : Int)
  | str (s : String)
  | arr (elems : List Json)
  | obj (fields : List (String × Json))

/-- XML tree node: an element with a name, an ordered attribute list and
ordered children, or a text node.  This is the shape the xmlbuilder2 calls in
generateXml build up. -/
inductive XNode : Type
  | elem (name : String) (attrs : List (String × String)) (children : List XNode)
  | text (s : String)

/-- Element name of a node; text nodes answer "#text". -/
def nodeName : XNode → String
  | .elem n _ _ => n
  | .text _ => "#text"

/-- Attribute lookup on an element node. -/
def getAttr : XNode → String → Option String
  | .elem _ attrs _, k => attrs.lookup k
  | .text _, _ => none

/-- Child list of a node. -/
def childrenOf : XNode → List XNode
  | .elem _ _ cs => cs
  | .text _ => []

/-- Configuration constant (src/index.ts line 5). -/
def timezone : String := "America/Denver"

/-- Configuration constant (src/index.ts line 6). -/
def lineUpID : String := "USA-OTA84321"

/-- Configuration constant (src/index.ts line 7). -/
def days : Nat := 8

/-- Luxon DateTime restricted to what the script uses: an instant in seconds
since the Unix epoch (the script only handles post-1970 instants) together
with a zone name.  Changing the zone never moves the instant; duration
arithmetic moves the instant and keeps the zone. -/
structure LDateTime where
  instant : Nat
  zone : String

/-- DateTime.toUTC(). -/
def toUTC (dt : LDateTime) : LDateTime := { dt with zone := "utc" }

/-- DateTime.setZone(z). -/
def setZone (dt : LDateTime) (z : String) : LDateTime := { dt with zone := z }

/-- DateTime.startOf(day) for a UTC-zoned value: the preceding UTC calendar
midnight.  The script only applies startOf after toUTC (line 105). -/
def startOfDayUTC (dt : LDateTime) : LDateTime :=
  { dt with instant := dt.instant - dt.instant % 86400 }

/-- DateTime.plus with a day count. -/
def plusDays (dt : LDateTime) (d : Nat) : LDateTime :=
  { dt with instant := dt.instant + d * 86400 }

/-- DateTime.plus with an hour count. -/
def plusHours (dt : LDateTime) (h : Nat) : LDateTime :=
  { dt with instant := dt.instant + h * 3600 }

/-- DateTime.plus with a minute count. -/
def plusMinutes (dt : LDateTime) (m : Nat) : LDateTime :=
  { dt with instant := dt.instant + m * 60 }

/-- DateTime.fromISO(s, zone utc) (line 128): the Program model below stores
the already-parsed instant, so parsing is the identity on it; the zone is the
requested utc. -/
def fromISOUtc (t : Nat) : LDateTime := { instant := t, zone := "utc" }

/-- One decimal digit character. -/
def digitChar (n : Nat) : Char :=
  match n % 10 with
  | 0 => '0' | 1 => '1' | 2 => '2' | 3 => '3' | 4 => '4'
  | 5 => '5' | 6 => '6' | 7 => '7' | 8 => '8' | _ => '9'

/-- Two-digit zero-padded decimal rendering (of n modulo 100). -/
def pad2 (n : Nat) : String := String.mk [digitChar (n / 10), digitChar n]

/-- Four-digit zero-padded decimal rendering (of n modulo 10000; the guide
data lives far below year 10000). -/
def pad4 (n : Nat) : String :=
  String.mk [digitChar (n / 1000), digitChar (n / 100), digitChar (n / 10), digitChar n]

/-- Gregorian (year, month, day) of a count of days since 1970-01-01, by the
standard era-decomposition algorithm, valid for nonnegative day counts. -/
def civilFromDays (z : Nat) : Nat × Nat × Nat :=
  let zd := z + 719468
  let era := zd / 146097
  let doe := zd % 146097
  let yoe := (doe - doe / 1460 + doe / 36524 - doe / 146096) / 365
  let doy := doe - (365 * yoe + yoe / 4 - yoe / 100)
  let mp := (5 * doy + 2) / 153
  let d := doy - (153 * mp + 2) / 5 + 1
  let m := if mp < 10 then mp + 3 else mp - 9
  (era * 400 + yoe + (if m ≤ 2 then 1 else 0), m, d)

/-- luxon toFormat with pattern yyyyMMddHHmmss, of an instant rendered in the
UTC zone.  The script formats with this pattern only after toUTC (lines
136-137); the local-zone formats computed on lines 129 and 131 are dead code,
never written to the document. -/
def formatStampUTC (t : Nat) : String :=
  let date := civilFromDays (t / 86400)
  let secs := t % 86400
  pad4 date.1 ++ pad2 date.2.1 ++ pad2 date.2.2 ++
    pad2 (secs / 3600) ++ pad2 (secs % 3600 / 60) ++ pad2 (secs % 60)

/-- toFormat with pattern yyyyMMddHHmmss followed by the literal suffix
" +0000", as applied to the toUTC values on lines 136-137. -/
def toFormatUTCStamp (dt : LDateTime) : String := formatStampUTC dt.instant ++ " +0000"

/-- DateTime.now().toFormat(yyyyMMdd) (line 57): the date part of the server
clock reading, zero-padded.  The variable is computed and then never used by
the rest of generateXml. -/
def fileDate (now : Nat) : String :=
  let date := civilFromDays (now / 86400)
  pad4 date.1 ++ pad2 date.2.1 ++ pad2 date.2.2

/-- The chunk helper (lines 208-214): slices of the given size taken at
stride size from the front.  The source loop never terminates for size 0; the
only call site passes 20, and size 0 is mapped to the empty result here. -/
def chunk {α : Type} : List α → Nat → List (List α)
  | _, 0 => []
  | [], _ + 1 => []
  | a :: as, s + 1 => ((a :: as).take (s + 1)) :: chunk (as.drop s) (s + 1)
termination_by l _ => l.length
decreasing_by simp [List.length_drop]; omega

/-- Channel record shape of the lineup response cast (lines 73-78).  logo is
optional in the data; the source tests its truthiness before use, and for a
string value truthiness is nonemptiness. -/
structure ChannelRec where
  stationId : String
  channelNumber : String
  stationCallSign : String
  logo : Option String
  deriving DecidableEq

/-- Program entry fields read by generateXml (lines 126-174).  title,
subtitle, description and type may be absent in the data; absence is modelled
as the empty string, which JavaScript treats identically to undefined in
every use the script makes of these fields (falsy fallback, truthiness tests,
and strict equality against nonempty literals).  startTime stores the instant
parsed from the ISO string, in seconds; runTime is in minutes (line 130). -/
structure Program where
  title : String
  subtitle : String
  description : String
  startTime : Nat
  runTime : Nat
  type : String
  flags : Option (List String)
  deriving DecidableEq

/-- program.flags?.includes(f) (lines 163-172): optional chaining makes an
absent flags field read as false. -/
def hasFlag (p : Program) (f : String) : Bool :=
  match p.flags with
  | some fs => fs.contains f
  | none => false

/-- One slot of the flattened listingData as read on line 124: either an
array of programs, or none for every case the guard on line 125 rejects (an
out-of-range index reading undefined, or an in-range non-array value). -/
abbrev GridSlot := Option (List Program)

/-- The channelMap record of lines 82-87 as its entry list: stationId maps to
the prefixed id.  JavaScript records keep the last write per key; List.lookup
returns the first, which is observably identical here because the stored
value is a function of the key alone. -/
def channelMapEntries (lineupData : List ChannelRec) : List (String × String) :=
  lineupData.map (fun c => (c.stationId, "ch" ++ c.stationId))

/-- channelMap[channel.stationId] || channel.channelNumber (line 134),
including the JavaScript falsy fallback when the looked-up string is empty. -/
def progChannelId (lineupData : List ChannelRec) (c : ChannelRec) : String :=
  match (channelMapEntries lineupData).lookup c.stationId with
  | some s => if s = "" then c.channelNumber else s
  | none => c.channelNumber

/-- The channel element built on lines 89-99: id attribute, three
display-name children, and an icon child when logo is truthy. -/
def channelElement (c : ChannelRec) : XNode :=
  .elem "channel" [("id", "ch" ++ c.stationId)]
    ([.elem "display-name" [] [.text c.stationCallSign],
      .elem "display-name" [] [.text ("Channel " ++ c.channelNumber)],
      .elem "display-name" [] [.text c.channelNumber]] ++
      (match c.logo with
       | some l =>
         if l = "" then []
         else [.elem "icon"
                [("src", "https://www.tvtv.us" ++ l), ("width", "360"), ("height", "270")] []]
       | none => []))

/-- A category element with language attribute, as built on lines 154-164. -/
def categoryElem (t : String) : XNode := .elem "category" [("lang", "en")] [.text t]

/-- The child elements of one programme, in the order lines 141-174 append
them: required title with fallback, optional sub-title and desc, at most one
category from the type code, then the four flag-driven elements. -/
def programmeChildren (p : Program) : List XNode :=
  [.elem "title" [("lang", "en")] [.text (if p.title = "" then "No Title" else p.title)]] ++
  (if p.subtitle = "" then [] else [.elem "sub-title" [("lang", "en")] [.text p.subtitle]]) ++
  (if p.description = "" then [] else [.elem "desc" [("lang", "en")] [.text p.description]]) ++
  (if p.type = "M" then [categoryElem "movie"]
   else if p.type = "N" then [categoryElem "news"]
   else if p.type = "S" then [categoryElem "sports"]
   else []) ++
  (if hasFlag p "EI" then [categoryElem "kids"] else []) ++
  (if hasFlag p "HD" then [.elem "video" [] [.elem "quality" [] [.text "HDTV"]]] else []) ++
  (if hasFlag p "Stereo" then [.elem "audio" [] [.elem "stereo" [] [.text "stereo"]]] else []) ++
  (if hasFlag p "New" then [.elem "new" [] []] else [])

/-- One programme element (lines 126-174): the start instant is interpreted
as UTC and moved to the display zone (line 128), the end is start plus
runTime minutes (line 130), and the start/stop attributes are written from
the toUTC values with the +0000 suffix (lines 136-137). -/
def programmeElement (channelId : String) (p : Program) : XNode :=
  let programStart := setZone (fromISOUtc p.startTime) timezone
  let programEnd := plusMinutes programStart p.runTime
  .elem "programme"
    [("start", toFormatUTCStamp (toUTC programStart)),
     ("stop", toFormatUTCStamp (toUTC programEnd)),
     ("channel", channelId)]
    (programmeChildren p)

/-- The body of one iteration of the index loop on lines 122-177: the channel
at this index paired with the listing slot at the same index; a missing or
non-array slot contributes nothing. -/
def channelProgrammes (lineupData : List ChannelRec) (listingData : List GridSlot)
    (index : Nat) : List XNode :=
  match lineupData[index]? with
  | none => []
  | some channel =>
    match listingData.getD index none with
    | some programs => programs.map (programmeElement (progChannelId lineupData channel))
    | none => []

/-- All programme elements of one day, produced by the index loop on lines
122-177 in index order. -/
def dayProgrammes (lineupData : List ChannelRec) (listingData : List GridSlot) : List XNode :=
  (List.range lineupData.length).flatMap (channelProgrammes lineupData listingData)

/-- Root attributes of the tv element (lines 62-68). -/
def tvAttrs (requestUrl : String) : List (String × String) :=
  [("generator-info-name", "tvtv2xmltv"),
   ("generator-info-url", "https://github.com/yourusername/tvtv2xmltv"),
   ("source-info-name", "TVTV"),
   ("source-info-url", "https://www.tvtv.us"),
   ("source-data-url", requestUrl)]

/-- allChannels (lines 81-85): the station ids of the lineup, in order.  The
day loop batches this list with chunk(allChannels, 20) on line 112. -/
def allChannels (lineupData : List ChannelRec) : List String :=
  lineupData.map (fun c => c.stationId)

/-- The finished document tree of generateXml: every channel element in
lineup order (lines 84-100) followed by the programme elements of each day in
day order (lines 103-178).  gridDays holds, per day of the loop, the
flattened per-channel listing data the batch fetches returned. -/
def generateXmlDoc (requestUrl : String) (lineupData : List ChannelRec)
    (gridDays : List (List GridSlot)) : XNode :=
  .elem "tv" (tvAttrs requestUrl)
    (lineupData.map channelElement ++ gridDays.flatMap (dayProgrammes lineupData))

/-- The query window of one day-loop iteration (lines 104-109): UTC calendar
midnight of the reference instant, plus the day offset and 4 hours for the
start, and plus one more day and 3 hours 59 minutes for the end. -/
def queryWindow (now : Nat) (day : Nat) : LDateTime × LDateTime :=
  let baseDt := startOfDayUTC (toUTC { instant := now, zone := "local" })
  (plusHours (plusDays baseDt day) 4,
   plusMinutes (plusHours (plusDays baseDt (day + 1)) 3) 59)

/-- Outcome of one upstream fetch call as the handler observes it: the
awaited fetch promise either rejects (network failure) or resolves to a
response with a status code and a body; body none means the response bytes
are not JSON, so the awaited json() call rejects.  The source never reads the
status (line 72 straight to line 73). -/
inductive FetchOutcome : Type
  | netError
  | response (status : Nat) (body : Option Json)

/-- JavaScript string coercion of a JSON value, as template literals and
string contexts apply it; inside an array join, null renders empty. -/
def jsonToStringJS (inArray : Bool) (j : Json) : String :=
  match j with
  | .null => if inArray then "" else "null"
  | .bool b => if b then "true" else "false"
  | .num n => toString n
  | .str s => s
  | .obj _ => "[object Object]"
  | .arr xs => String.intercalate "," (xs.attach.map (fun x => jsonToStringJS true x.1))
termination_by sizeOf j
decreasing_by
  have := List.sizeOf_lt_of_mem x.2
  simp at *
  omega

/-- Property read on an untyped JSON value: fields of an object, undefined
otherwise. -/
def fieldOpt : Json → String → Option Json
  | .obj fields, k => fields.lookup k
  | _, _ => none

/-- Reading a string-typed field as the unvalidated cast on lines 73-78 lets
generateXml do: a missing field or a non-object receiver reads as undefined,
which the later string contexts render as "undefined"; a present non-string
value is rendered by JavaScript string coercion. -/
def fieldString (j : Json) (k : String) : String :=
  match fieldOpt j k with
  | some v => jsonToStringJS false v
  | none => "undefined"

/-- JavaScript truthiness of a possibly-absent JSON value. -/
def jsTruthy : Option Json → Bool
  | none => false
  | some .null => false
  | some (.bool b) => b
  | some (.num n) => n != 0
  | some (.str s) => s != ""
  | some (.arr _) => true
  | some (.obj _) => true

/-- The typed channel record the cast promises, read off one element the
for..of loop yields.  A truthy logo is kept as its coerced string (the
pathological truthy JSON values that coerce to the empty string, such as an
empty array, are dropped here; no claim reaches them). -/
def jsonToChannel (j : Json) : ChannelRec :=
  { stationId := fieldString j "stationId"
    channelNumber := fieldString j "channelNumber"
    stationCallSign := fieldString j "stationCallSign"
    logo :=
      match fieldOpt j "logo" with
      | some v => if jsTruthy (some v) then some (jsonToStringJS false v) else none
      | none => none }

/-- Errors the handler can catch from the lineup fetch sequence. -/
inductive JsError : Type
  | fetchFailed
  | jsonParseFailed
  | notIterable

/-- What for..of can iterate among JSON results: arrays elementwise and
strings character-wise (each character a one-character string); objects,
null, booleans and numbers throw TypeError at the loop header. -/
def forOfItems : Json → Option (List Json)
  | .arr xs => some xs
  | .str s => some (s.data.map (fun c => Json.str (String.mk [c])))
  | _ => none

/-- The lineup fetch and parse steps of generateXml (lines 71-78) up to the
for..of header on line 84: await fetch, await json(), then iterate.  No
status check and no shape validation happen anywhere in between. -/
def lineupOutcome : FetchOutcome → Except JsError (List ChannelRec)
  | .netError => .error .fetchFailed
  | .response _ none => .error .jsonParseFailed
  | .response _ (some body) =>
    match forOfItems body with
    | some items => .ok (items.map jsonToChannel)
    | none => .error .notIterable

/-- Response body: the generated document tree, or plain text. -/
inductive RespBody : Type
  | xmlDoc (doc : XNode)
  | text (s : String)

/-- HTTP response as the handler constructs it. -/
structure HttpResponse where
  status : Nat
  headers : List (String × String)
  body : RespBody

/-- The successful response of generateXml (lines 191-199): default status
200 and the fixed header list; the body is the document tree, serialization
being purely presentational. -/
def xmltvResponse (doc : XNode) : HttpResponse :=
  { status := 200
    headers :=
      [("Content-Type", "application/xml; charset=utf-8"),
       ("Content-Disposition", "attachment; filename=\"tvguide.xml\""),
       ("Cache-Control", "no-cache, no-store, must-revalidate"),
       ("Pragma", "no-cache"),
       ("Expires", "0")]
    body := .xmlDoc doc }

/-- The catch-all of the server fetch handler (lines 38-44): any error thrown
while generating becomes this response, and nothing of the partially built
in-memory document is ever written out. -/
def internalErrorResponse : HttpResponse :=
  { status := 500
    headers := [("Content-Type", "text/plain")]
    body := .text "Internal Server Error" }

/-- One request to GET /xmltv: the lineup fetch outcome is given; the per-day
grid fetch results are supplied as data (a grid fetch that failed would throw
into the same catch block, which no claim settled here exercises).  An error
from the lineup sequence propagates to the catch block; otherwise the
document is fully built and returned. -/
def runRequest (lineupResp : FetchOutcome) (gridDays : List (List GridSlot))
    (requestUrl : String) : HttpResponse :=
  match lineupOutcome lineupResp with
  | .error _ => internalErrorResponse
  | .ok lineupData => xmltvResponse (generateXmlDoc requestUrl lineupData gridDays)

/-- Whether a node is a category element whose single text child is t. -/
def isCategoryText (n : XNode) (t : String) : Bool :=
  match n with
  | .elem nm _ [.text s] => nm == "category" && s == t
  | _ => false

/-- Sample lineup channel used to instantiate the theorems below. -/
def demoChannel : ChannelRec :=
  { stationId := "100", channelNumber := "5.1", stationCallSign := "KSL", logo := none }

/-- Sample program entry used to instantiate the theorems below. -/
def demoProgram : Program :=
  { title := "Movie Night", subtitle := "", description := "", startTime := 1709251200,
    runTime := 30, type := "M", flags := some ["HD", "New"] }

/-- Singleton sample lineup. -/
def demoLineup : List ChannelRec := [demoChannel]

/-- Sample grid data: one day, one slot holding one program. -/
def demoGrid : List (List GridSlot) := [[some [demoProgram]]]

/-! Helper lemmas shared by the claim theorems. -/

theorem mem_of_getElem_opt {α : Type} {l : List α} {i : Nat} {a : α} (h : l[i]? = some a) :
    a ∈ l := by
  obtain ⟨w, rfl⟩ := List.getElem?_eq_some.mp h
  exact List.getElem_mem w

theorem lookup_channelMapEntries (lineupData : List ChannelRec) (c : ChannelRec)
    (hc : c ∈ lineupData) :
    (channelMapEntries lineupData).lookup c.stationId = some ("ch" ++ c.stationId) := by
  induction lineupData with
  | nil => cases hc
  | cons a l ih =>
    rcases List.mem_cons.mp hc with rfl | hmem
    · simp [channelMapEntries, List.lookup]
    · by_cases he : c.stationId = a.stationId
      · simp [channelMapEntries, List.lookup, he]
      · simp only [channelMapEntries, List.map_cons, List.lookup]
        have hbe : (c.stationId == a.stationId) = false := by simp [he]
        rw [hbe]
        exact ih hmem

theorem ch_prefix_ne_empty (s : String) : ("ch" ++ s) ≠ "" := by
  intro h
  have := congrArg String.data h
  simp [String.data_append] at this

theorem progChannelId_of_mem (lineupData : List ChannelRec) (c : ChannelRec)
    (hc : c ∈ lineupData) : progChannelId lineupData c = "ch" ++ c.stationId := by
  unfold progChannelId
  rw [lookup_channelMapEntries lineupData c hc]
  exact if_neg (ch_prefix_ne_empty c.stationId)

theorem chunk_flatten {α : Type} (s : Nat) : ∀ (l : List α), (chunk l (s + 1)).flatten = l
  | [] => by simp [chunk]
  | a :: as => by
    have ihr := chunk_flatten s (as.drop s)
    simp only [chunk, List.flatten_cons, ihr, List.take_succ_cons]
    rw [List.cons_append, List.take_append_drop]
termination_by l => l.length
decreasing_by simp [List.length_drop]; omega

theorem chunk_mem_length_le {α : Type} (s : Nat) : ∀ (l : List α) (b : List α),
    b ∈ chunk l (s + 1) → b.length ≤ s + 1
  | [] => by simp [chunk]
  | a :: as => by
    intro b hb
    simp only [chunk, List.mem_cons] at hb
    rcases hb with rfl | hb
    · simp
    · exact chunk_mem_length_le s (as.drop s) b hb
termination_by l => l.length
decreasing_by simp [List.length_drop]; omega

theorem chunk_short_count {α : Type} (s : Nat) : ∀ (l : List α),
    (chunk l (s + 1)).countP (fun b => decide (b.length < s + 1))
      = if l.length % (s + 1) = 0 then 0 else 1
  | [] => by simp [chunk]
  | a :: as => by
    have ihr := chunk_short_count s (as.drop s)
    simp only [chunk, List.countP_cons, ihr, List.length_drop, List.length_cons,
      List.length_take, decide_eq_true_eq]
    by_cases hlong : as.length < s
    · have hz : as.length - s = 0 := by omega
      rw [if_pos (by rw [hz, Nat.zero_mod] : (as.length - s) % (s + 1) = 0),
        if_pos (by omega : min (s + 1) (as.length + 1) < s + 1),
        if_neg (show ¬ (as.length + 1) % (s + 1) = 0 by
          rw [Nat.mod_eq_of_lt (by omega)]; omega)]
    · rw [if_neg (by omega : ¬ min (s + 1) (as.length + 1) < s + 1)]
      have hms : as.length + 1 = (as.length - s) + (s + 1) := by omega
      have hmod : (as.length + 1) % (s + 1) = (as.length - s) % (s + 1) := by
        conv_lhs => rw [hms]
        rw [Nat.add_mod_right]
      simp only [hmod]
      omega
termination_by l => l.length
decreasing_by simp [List.length_drop]; omega

/-! Claim theorems. -/

/-- C2: for every list of channel identifiers and the fixed batch size 20,
chunk returns batches whose concatenation is the original list in order, each
batch of length at most 20, with exactly one batch strictly shorter than 20
iff the list length is not an exact multiple of 20. -/
theorem chunk_twenty_batches_spec (l : List String) :
    (chunk l 20).flatten = l
    ∧ (∀ b ∈ chunk l 20, b.length ≤ 20)
    ∧ ((chunk l 20).countP (fun b => decide (b.length < 20)) = 1 ↔ ¬ (20 ∣ l.length)) := by
  refine ⟨chunk_flatten 19 l, fun b hb => chunk_mem_length_le 19 l b hb, ?_⟩
  rw [chunk_short_count 19 l]
  constructor
  · intro h hdvd
    rw [if_pos (by omega)] at h
    omega
  · intro h
    rw [if_neg (by omega)]

/-- C3: the query window start is the UTC calendar midnight of the reference
instant plus the day offset in days plus 4 hours, and the end is that
midnight plus one more day plus 3 hours 59 minutes; at day offset 0 from
reference 2024-03-01T00:00:00Z the window is 2024-03-01T04:00:00Z to
2024-03-02T03:59:00Z. -/
theorem query_window_times (now : Nat) (day : Nat) :
    (queryWindow now day).1.instant = now - now % 86400 + day * 86400 + 4 * 3600
    ∧ (queryWindow now day).2.instant
        = now - now % 86400 + (day + 1) * 86400 + (3 * 60 + 59) * 60
    ∧ formatStampUTC 1709251200 = "20240301000000"
    ∧ (queryWindow 1709251200 0).1.instant = 1709265600
    ∧ formatStampUTC (queryWindow 1709251200 0).1.instant = "20240301040000"
    ∧ (queryWindow 1709251200 0).2.instant = 1709351940
    ∧ formatStampUTC (queryWindow 1709251200 0).2.instant = "20240302035900" := by
  refine ⟨rfl, ?_, by decide, by decide, by decide, by decide, by decide⟩
  simp only [queryWindow, startOfDayUTC, toUTC, plusDays, plusHours, plusMinutes]

/-- C5: each programme element's start attribute is the UTC-normalized
yyyyMMddHHmmss rendering of the start instant with a literal +0000 suffix,
and its stop attribute is the same rendering of the start instant plus
runTime minutes. -/
theorem programme_times_utc (channelId : String) (p : Program) :
    getAttr (programmeElement channelId p) "start"
      = some (formatStampUTC p.startTime ++ " +0000")
    ∧ getAttr (programmeElement channelId p) "stop"
      = some (formatStampUTC (p.startTime + p.runTime * 60) ++ " +0000") :=
  ⟨rfl, rfl⟩

/-- C10: for every channel of the fetched lineup the channelMap lookup by its
stationId is defined, so the channelNumber fallback on line 134 is never
taken and the programme channel attribute value is always ch followed by the
stationId. -/
theorem channel_attribute_never_falls_back (lineupData : List ChannelRec) (c : ChannelRec)
    (hc : c ∈ lineupData) :
    (channelMapEntries lineupData).lookup c.stationId = some ("ch" ++ c.stationId)
    ∧ progChannelId lineupData c = "ch" ++ c.stationId :=
  ⟨lookup_channelMapEntries lineupData c hc, progChannelId_of_mem lineupData c hc⟩

/-- Witness for C10 at the sample lineup. -/
theorem channel_attribute_never_falls_back_witness :
    (channelMapEntries demoLineup).lookup demoChannel.stationId
        = some ("ch" ++ demoChannel.stationId)
    ∧ progChannelId demoLineup demoChannel = "ch" ++ demoChannel.stationId :=
  channel_attribute_never_falls_back demoLineup demoChannel (List.mem_cons_self demoChannel [])

theorem countP_if_singleton {α : Type} (c : Prop) [Decidable c] (x : α) (q : α → Bool) :
    (if c then [x] else []).countP q = if c then (if q x then 1 else 0) else 0 := by
  split <;> simp [List.countP_cons]

theorem countP_if_singleton_right {α : Type} (c : Prop) [Decidable c] (x : α) (q : α → Bool) :
    (if c then [] else [x]).countP q = if c then 0 else (if q x then 1 else 0) := by
  split <;> simp [List.countP_cons]

/-- C6: a program typed M yields exactly one category element with text
movie and no news or sports category. -/
theorem type_M_single_movie_category (p : Program) (h : p.type = "M") :
    (programmeChildren p).countP (fun n => isCategoryText n "movie") = 1
    ∧ (programmeChildren p).countP (fun n => isCategoryText n "news") = 0
    ∧ (programmeChildren p).countP (fun n => isCategoryText n "sports") = 0 := by
  refine ⟨?_, ?_, ?_⟩ <;>
    simp [programmeChildren, h, List.countP_append, countP_if_singleton,
      countP_if_singleton_right, isCategoryText, categoryElem, List.countP_cons]

/-- Witness for C6 at the sample program. -/
theorem type_M_single_movie_category_witness :
    (programmeChildren demoProgram).countP (fun n => isCategoryText n "movie") = 1
    ∧ (programmeChildren demoProgram).countP (fun n => isCategoryText n "news") = 0
    ∧ (programmeChildren demoProgram).countP (fun n => isCategoryText n "sports") = 0 :=
  type_M_single_movie_category demoProgram rfl

/-- C7: a program flagged HD and New but not Stereo yields a video element
holding quality HDTV and an empty new element, and no audio element. -/
theorem flags_hd_new_without_stereo (p : Program)
    (h1 : hasFlag p "HD" = true) (h2 : hasFlag p "New" = true)
    (h3 : hasFlag p "Stereo" = false) :
    XNode.elem "video" [] [XNode.elem "quality" [] [XNode.text "HDTV"]] ∈ programmeChildren p
    ∧ XNode.elem "new" [] [] ∈ programmeChildren p
    ∧ (programmeChildren p).countP (fun n => nodeName n == "audio") = 0 := by
  refine ⟨?_, ?_, ?_⟩
  · simp [programmeChildren, h1]
  · simp [programmeChildren, h2]
  · simp [programmeChildren, h3, List.countP_append, countP_if_singleton,
      countP_if_singleton_right, nodeName, categoryElem, List.countP_cons]
    split_ifs <;> simp

/-- Witness for C7 at the sample program. -/
theorem flags_hd_new_without_stereo_witness :
    XNode.elem "video" [] [XNode.elem "quality" [] [XNode.text "HDTV"]]
        ∈ programmeChildren demoProgram
    ∧ XNode.elem "new" [] [] ∈ programmeChildren demoProgram
    ∧ (programmeChildren demoProgram).countP (fun n => nodeName n == "audio") = 0 :=
  flags_hd_new_without_stereo demoProgram rfl rfl rfl

theorem flatMap_filter_of_nil {α β : Type} (l : List α) (f : α → List β) (q : α → Bool)
    (h : ∀ x ∈ l, q x = false → f x = []) :
    l.flatMap f = (l.filter q).flatMap f := by
  induction l with
  | nil => rfl
  | cons a as ih =>
    have iht := ih (fun x hx => h x (List.mem_cons_of_mem a hx))
    by_cases hq : q a = true
    · simp [List.filter_cons, hq, List.flatMap_cons, iht]
    · have hfa : f a = [] := h a (List.mem_cons_self a as) (by simpa using hq)
      simp [List.filter_cons, hq, hfa, List.flatMap_cons, iht]

/-- C8: when the listing slot for a channel index is missing or not an array,
program emission for that channel produces nothing and no error, and the day
output equals the emission over the remaining indices alone. -/
theorem missing_grid_slot_skips_channel (lineupData : List ChannelRec)
    (listingData : List GridSlot) (index : Nat)
    (h : listingData.getD index none = none) :
    channelProgrammes lineupData listingData index = []
    ∧ dayProgrammes lineupData listingData
      = ((List.range lineupData.length).filter (fun j => j != index)).flatMap
          (channelProgrammes lineupData listingData) := by
  have hempty : channelProgrammes lineupData listingData index = [] := by
    unfold channelProgrammes
    cases hl : lineupData[index]? with
    | none => rfl
    | some channel => rw [h]
  refine ⟨hempty, ?_⟩
  unfold dayProgrammes
  apply flatMap_filter_of_nil
  intro x hx hqx
  have hxi : x = index := by simpa using hqx
  rw [hxi]
  exact hempty

/-- Witness for C8 at the sample lineup with a missing slot. -/
theorem missing_grid_slot_skips_channel_witness :
    channelProgrammes demoLineup [none] 0 = []
    ∧ dayProgrammes demoLineup [none]
      = ((List.range demoLineup.length).filter (fun j => j != 0)).flatMap
          (channelProgrammes demoLineup [none]) :=
  missing_grid_slot_skips_channel demoLineup [none] 0 rfl

theorem digitChar_mem (n : Nat) : digitChar n ∈ "0123456789".data := by
  unfold digitChar
  split <;> decide

/-- C9: the success response has status 200, an XML-announcing Content-Type,
and an attachment Content-Disposition; but its fixed filename tvguide.xml
never embeds a date, whatever the current clock reads, although line 57
computes fileDate for exactly that purpose and never uses it. -/
theorem response_filename_has_no_date (doc : XNode) (now : Nat) :
    (xmltvResponse doc).status = 200
    ∧ (xmltvResponse doc).headers.lookup "Content-Type"
        = some "application/xml; charset=utf-8"
    ∧ (xmltvResponse doc).headers.lookup "Content-Disposition"
        = some "attachment; filename=\"tvguide.xml\""
    ∧ ¬ (fileDate now).data <:+: ("attachment; filename=\"tvguide.xml\"").data := by
  refine ⟨rfl, rfl, rfl, ?_⟩
  intro hinf
  have h1 : digitChar ((civilFromDays (now / 86400)).1 / 1000) ∈ (fileDate now).data := by
    simp [fileDate, pad4, String.data_append]
  have h2 := hinf.subset h1
  have h3 := digitChar_mem ((civilFromDays (now / 86400)).1 / 1000)
  have h4 : ∀ c ∈ "0123456789".data, c ∉ ("attachment; filename=\"tvguide.xml\"").data := by
    decide
  exact h4 _ h3 h2

/-- C4 counterexample: an upstream lineup response with the non-success
status 503 whose body is nevertheless a JSON array is processed without any
failure, and the request answers 200 — the source never reads the status, so
a non-2xx response does not produce the 500 the claim requires. -/
theorem upstream_status_ignored :
    (runRequest (.response 503 (some (.arr []))) [] "http://localhost:3000/xmltv").status
      = 200 := rfl

/-- C4 as amended: the lineup fetch throws exactly when the fetch promise
rejects, when the body is not JSON, or when the parsed body is a JSON value
for..of cannot iterate; every thrown case yields the 500 catch-all response
with a plain-text body and no partial document, every other case yields the
200 document response — the upstream status code and the element shape are
never consulted. -/
theorem lineup_failure_modes (resp : FetchOutcome) (gridDays : List (List GridSlot))
    (requestUrl : String) :
    ((runRequest resp gridDays requestUrl).status = 500 ↔
      (resp = .netError ∨ (∃ s, resp = .response s none) ∨
        (∃ s j, resp = .response s (some j) ∧ forOfItems j = none)))
    ∧ ((runRequest resp gridDays requestUrl).status = 500 ∨
        (runRequest resp gridDays requestUrl).status = 200)
    ∧ (runRequest resp gridDays requestUrl).body =
        (match lineupOutcome resp with
         | .error _ => RespBody.text "Internal Server Error"
         | .ok lineupData => RespBody.xmlDoc (generateXmlDoc requestUrl lineupData gridDays)) := by
  rcases resp with _ | ⟨s, b⟩
  · simp [runRequest, lineupOutcome, internalErrorResponse]
  · rcases b with _ | j
    · simp [runRequest, lineupOutcome, internalErrorResponse]
    · rcases j with _ | b | n | str | xs | fields <;>
        simp [runRequest, lineupOutcome, forOfItems, internalErrorResponse, xmltvResponse] <;>
        exact ⟨s, _, ⟨rfl, rfl⟩, rfl⟩

/-! Decomposition helpers for the referential-integrity claim. -/

theorem getAttr_programmeElement_channel (channelId : String) (p : Program) :
    getAttr (programmeElement channelId p) "channel" = some channelId := rfl

theorem exists_of_mem_dayProgrammes {lineupData : List ChannelRec}
    {listingData : List GridSlot} {node : XNode}
    (h : node ∈ dayProgrammes lineupData listingData) :
    ∃ c ∈ lineupData, ∃ p, node = programmeElement (progChannelId lineupData c) p := by
  unfold dayProgrammes at h
  obtain ⟨index, _, hnode⟩ := List.mem_flatMap.mp h
  unfold channelProgrammes at hnode
  cases hl : lineupData[index]? with
  | none => rw [hl] at hnode; cases hnode
  | some channel =>
    rw [hl] at hnode
    cases hg : listingData.getD index none with
    | none => rw [hg] at hnode; cases hnode
    | some programs =>
      rw [hg] at hnode
      obtain ⟨p, _, rfl⟩ := List.mem_map.mp hnode
      exact ⟨channel, mem_of_getElem_opt hl, p, rfl⟩

/-- C1: in any generated document, every programme element's channel
attribute value equals the id attribute of a channel element that appears
strictly earlier among the children of the tv root. -/
theorem programme_channel_references_earlier_channel
    (requestUrl : String) (lineupData : List ChannelRec) (gridDays : List (List GridSlot))
    (j : Nat) (prog : XNode) (x : String)
    (hj : (childrenOf (generateXmlDoc requestUrl lineupData gridDays))[j]? = some prog)
    (hname : nodeName prog = "programme")
    (hx : getAttr prog "channel" = some x) :
    ∃ i chan, i < j
      ∧ (childrenOf (generateXmlDoc requestUrl lineupData gridDays))[i]? = some chan
      ∧ nodeName chan = "channel" ∧ getAttr chan "id" = some x := by
  have hchildren : childrenOf (generateXmlDoc requestUrl lineupData gridDays)
      = lineupData.map channelElement ++ gridDays.flatMap (dayProgrammes lineupData) := rfl
  rw [hchildren] at hj
  by_cases hjlt : j < (lineupData.map channelElement).length
  · exfalso
    rw [List.getElem?_append_left hjlt, List.getElem?_map] at hj
    cases hl : lineupData[j]? with
    | none => rw [hl] at hj; cases hj
    | some c =>
      rw [hl] at hj
      have hpc : channelElement c = prog := Option.some.inj hj
      rw [← hpc] at hname
      exact absurd hname (by simp [channelElement, nodeName])
  · push_neg at hjlt
    rw [List.getElem?_append_right hjlt] at hj
    have hmem : prog ∈ gridDays.flatMap (dayProgrammes lineupData) := mem_of_getElem_opt hj
    obtain ⟨listingData, _, hmem2⟩ := List.mem_flatMap.mp hmem
    obtain ⟨c, hc, p, rfl⟩ := exists_of_mem_dayProgrammes hmem2
    have hxval : progChannelId lineupData c = x := by
      rw [getAttr_programmeElement_channel] at hx
      exact Option.some.inj hx
    obtain ⟨i, hi, hci⟩ := List.mem_iff_getElem.mp hc
    refine ⟨i, channelElement c, ?_, ?_, rfl, ?_⟩
    · have h1 : i < (lineupData.map channelElement).length := by simpa using hi
      omega
    · rw [hchildren,
        List.getElem?_append_left (by simpa using hi), List.getElem?_map,
        List.getElem?_eq_getElem hi, hci]
      rfl
    · show getAttr (channelElement c) "id" = some x
      rw [← hxval, progChannelId_of_mem lineupData c hc]
      rfl

/-- Witness for C1 at the sample document: the single programme sits at child
index 1 and its channel attribute ch100 is the id of the channel element at
index 0. -/
theorem programme_channel_references_earlier_channel_witness :
    ∃ i chan, i < 1
      ∧ (childrenOf (generateXmlDoc "http://localhost:3000/xmltv" demoLineup demoGrid))[i]?
          = some chan
      ∧ nodeName chan = "channel" ∧ getAttr chan "id" = some "ch100" :=
  programme_channel_references_earlier_channel "http://localhost:3000/xmltv" demoLineup
    demoGrid 1 (programmeElement "ch100" demoProgram) "ch100" (by rfl) (by rfl) (by rfl)

end Xmltv
